import Mathlib

/-!
Verification development for the hologram compositor of `src/main.py`
(`create_pseudo_3d_hologram`, lines 151-181).

The compositor is built on Pillow (PIL) image operations.  We shallowly embed
the images and the PIL operations the compositor uses:

* an `Image` is a width, a height, a color mode and a pixel map;
* pixel channel values are natural numbers (bytes `0..255` in real images);
* geometric operations (`mirror`, the `rotate` fast paths for multiples of
  90 degrees, `paste` with and without a transparency mask, `convert "RGB"`,
  `thumbnail`) are translated from Pillow's documented semantics and C code
  (`Paste.c` `BLEND`/`MULDIV255`, `Blend.c` interpolation, `convert` L-band
  weights, `Image.thumbnail` aspect rounding);
* `Image.resize` interpolation weights (Pillow's bicubic kernel) are abstracted
  to grid sampling: the resized image has exactly the requested dimensions and
  samples the source grid.  No claim below depends on the interpolation kernel;
* Python floats are modelled by exact rational/integer arithmetic
  (`0.8`, `1.4`, `ImageStat` means); Python `//` and `int()` on the nonnegative
  values that occur here are floor operations;
* a PIL call that raises (`ZeroDivisionError` from `ImageStat` on an empty
  image inside `ImageEnhance.Contrast`, `ValueError` from `paste` on a bad
  transparency mask) is modelled with `Except`, and the `try/except` of
  `create_pseudo_3d_hologram` becomes a `match` returning the black fallback.

Only the `RGB` and `RGBA` color modes are modelled: they are the modes the
surrounding pipeline produces and the only modes the specification's data
model admits for a source image.
-/

namespace Holo

/-- A pixel with red, green, blue and alpha channels.  Real Pillow pixels are
bytes; mode-`RGB` images carry no alpha band, which we model by the
conventional fully opaque value `255` (what PIL reports for such images). -/
structure Pix where
  r : Nat
  g : Nat
  b : Nat
  a : Nat
deriving DecidableEq, Repr

/-- The two color modes the compositor's pipeline can feed it. -/
inductive Mode where
  | RGB
  | RGBA
deriving DecidableEq, Repr

/-- A PIL image: dimensions, color mode, and a pixel map.  `px x y` is the
pixel at column `x`, row `y` (origin top-left, `y` growing downwards, as in
PIL); values outside `[0, width) × [0, height)` are irrelevant junk. -/
structure Image where
  width : Nat
  height : Nat
  mode : Mode
  px : Nat → Nat → Pix

/-- Model of `PIL.Image.new(mode, (w, h), color)`: a constant image. -/
def Image.new (m : Mode) (w h : Nat) (c : Pix) : Image :=
  ⟨w, h, m, fun _ _ => c⟩

/-- Model of `PIL.ImageOps.mirror` (transpose `FLIP_LEFT_RIGHT`): horizontal flip. -/
def mirror (i : Image) : Image :=
  ⟨i.width, i.height, i.mode, fun x y => i.px (i.width - 1 - x) y⟩

/-- Model of `img.rotate(180)` (PIL fast path: transpose `ROTATE_180`). -/
def rotate180 (i : Image) : Image :=
  ⟨i.width, i.height, i.mode, fun x y => i.px (i.width - 1 - x) (i.height - 1 - y)⟩

/-- Model of `img.rotate(90, expand=True)` (PIL fast path: transpose `ROTATE_90`).
PIL's `rotate` angle is measured counter-clockwise, so this rotates the image
90° counter-clockwise; the output canvas is the transposed size, i.e. it
fits the rotated rectangle exactly. -/
def rotateCCW90 (i : Image) : Image :=
  ⟨i.height, i.width, i.mode, fun x y => i.px (i.width - 1 - y) x⟩

/-- Model of `img.rotate(270, expand=True)` (PIL fast path: transpose `ROTATE_270`):
270° counter-clockwise, output canvas fits the rotated rectangle exactly. -/
def rotateCCW270 (i : Image) : Image :=
  ⟨i.height, i.width, i.mode, fun x y => i.px y (i.height - 1 - x)⟩

/-- Model of `img.resize((w, h))`: the result has exactly the requested dimensions and
the same mode, and resamples the source pixel grid.  (Pillow interpolates
with a bicubic kernel; the interpolation weights are abstracted to grid
sampling, see the file comment — no claim depends on them.) -/
def resize (i : Image) (w h : Nat) : Image :=
  ⟨w, h, i.mode, fun x y => i.px (x * i.width / w) (y * i.height / h)⟩

/-- Model of `img.convert("RGB")` from `RGBA`: Pillow drops the alpha band without
compositing, keeping the color channels; the result is opaque. -/
def convertRGB (i : Image) : Image :=
  ⟨i.width, i.height, Mode.RGB, fun x y =>
    ⟨(i.px x y).r, (i.px x y).g, (i.px x y).b, 255⟩⟩

/-! Section: `ImageEnhance.Contrast(img).enhance(1.4)`  (src/main.py lines 156-157)

Pillow computes the mean of the `"L"` (luminance) conversion of the image,
builds a constant gray "degenerate" image at that mean (with the source's
alpha band copied over for `RGBA`), and linearly interpolates
`degenerate + factor * (image - degenerate)` per channel, clamping to
`[0, 255]` and truncating (`Blend.c`).  The factor here is `1.4 = 7/5`. -/

/-- Pillow `convert("L")` luminance of one pixel: the fixed-point formula
`L = (19595 R + 38470 G + 7471 B + 2^15) >> 16` from Pillow's `convert.c`
(alpha is ignored). -/
def lumaByte (p : Pix) : Nat :=
  (19595 * p.r + 38470 * p.g + 7471 * p.b + 32768) / 65536

/-- Sum of `f x y` over the grid `[0,w) × [0,h)` (the nested loops of
`ImageStat`). -/
def gridSum (w h : Nat) (f : Nat → Nat → Nat) : Nat :=
  ((List.range h).map fun y =>
    ((List.range w).map fun x => f x y).foldl (· + ·) 0).foldl (· + ·) 0

/-- Model of `int(ImageStat.Stat(image.convert("L")).mean[0] + 0.5)`: the rounded mean
luminance.  `⌊s/c + 1/2⌋ = (2 s + c) / (2 c)` in natural-number division.
(Meaningful only for nonempty images; PIL raises `ZeroDivisionError` on an
empty one, which the pipeline models separately.) -/
def meanL (i : Image) : Nat :=
  (2 * gridSum i.width i.height (fun x y => lumaByte (i.px x y)) + i.width * i.height) /
    (2 * (i.width * i.height))

/-- One channel of `Image.blend(degenerate, image, 1.4)` (Pillow `Blend.c`):
`temp = m + 1.4 * (v - m)`; clamp to `[0, 255]`, truncating the float to a
byte otherwise.  With `1.4 = 7/5` exactly: `temp = (7 v - 2 m) / 5`. -/
def contrastChannel (m v : Nat) : Nat :=
  if 7 * v ≤ 2 * m then 0 else min 255 ((7 * v - 2 * m) / 5)

/-- Contrast enhancement of one pixel against mean `m`.  The degenerate
image's alpha band is the source's own alpha (`ImageEnhance` `putalpha`),
and blending a channel with itself is the identity, so alpha is preserved. -/
def contrastPix (m : Nat) (p : Pix) : Pix :=
  ⟨contrastChannel m p.r, contrastChannel m p.g, contrastChannel m p.b, p.a⟩

/-- Model of `ImageEnhance.Contrast(img).enhance(1.4)` as a total map on images
(the empty-image `ZeroDivisionError` is handled by the pipeline). -/
def enhanceContrastIm (i : Image) : Image :=
  ⟨i.width, i.height, i.mode, fun x y => contrastPix (meanL i) (i.px x y)⟩

/-! Section: `img.thumbnail((380, 380))`  (src/main.py line 158)

Pillow's `Image.thumbnail`: return unchanged if the image already fits;
otherwise compute the aspect-preserving target size with `round_aspect`
(floor or ceiling, whichever better approximates the aspect ratio, and at
least 1), then resize in place unless the target equals the current size. -/

/-- Pillow's `round_aspect(number, key)`:
`max(min(math.floor(number), math.ceil(number), key=key), 1)`.
Python's `min` keeps the first argument (the floor) on a key tie. -/
def roundAspect (q : ℚ) (key : ℤ → ℚ) : ℤ :=
  max (if key ⌈q⌉ < key ⌊q⌋ then ⌈q⌉ else ⌊q⌋) 1

/-- The aspect ratio `self.width / self.height` as an exact rational. -/
def aspectOf (i : Image) : ℚ := (i.width : ℚ) / (i.height : ℚ)

/-- The target size Pillow's `thumbnail((380, 380))` computes when the image
does not already fit: `x / y >= aspect` (here `380 / 380 >= aspect`) keeps
`y = 380` and rounds `x = 380 * aspect`, otherwise keeps `x = 380` and
rounds `y = 380 / aspect`. -/
def thumbTarget (i : Image) : Nat × Nat :=
  if (380 : ℚ) / 380 ≥ aspectOf i then
    ((roundAspect (380 * aspectOf i)
        (fun n => |aspectOf i - (n : ℚ) / 380|)).toNat, 380)
  else
    (380, (roundAspect ((380 : ℚ) / aspectOf i)
        (fun n => if n = 0 then 0 else |aspectOf i - (380 : ℚ) / (n : ℚ)|)).toNat)

/-- Model of `img.thumbnail((380, 380))`: unchanged when `380 >= width` and
`380 >= height`; otherwise resize to the aspect-preserving target unless
that target already is the current size. -/
def thumbnail380 (i : Image) : Image :=
  if 380 ≥ i.width ∧ 380 ≥ i.height then i
  else if (i.width, i.height) = thumbTarget i then i
  else resize i (thumbTarget i).1 (thumbTarget i).2

/-! Section: `canvas.paste(face, box, mask)`  (Pillow `Paste.c`)

Without a mask, `paste` copies every band of the face (alpha included) into
the box, clipped to the canvas.  With a mask, the mask must be a
`"1"`/`"L"`/`"LA"`/`"RGBA"` image of the face's size — an `RGB` mask raises
`ValueError("bad transparency mask")` — and every band of the canvas is
blended with the face under the mask's alpha band using the byte-accurate
`BLEND`/`MULDIV255` macros. -/

/-- Pillow's `MULDIV255(a, b)`: `tmp = a*b + 128; ((tmp >> 8) + tmp) >> 8`,
the exact round-to-nearest of `a*b/255` on bytes. -/
def mulDiv255 (a b : Nat) : Nat :=
  ((a * b + 128) / 256 + (a * b + 128)) / 256

/-- Pillow's `BLEND(mask, in1, in2)` on one channel:
`MULDIV255(in1, 255 - mask) + MULDIV255(in2, mask)`. -/
def blendByte (m d s : Nat) : Nat :=
  mulDiv255 d (255 - m) + mulDiv255 s m

/-- Membership of canvas pixel `(x, y)` in the box of a face pasted at
integer position `pos` (PIL clips the box to the canvas, so membership is
simply the intersection with the face's rectangle). -/
def InPasteBox (pos : ℤ × ℤ) (face : Image) (x y : Nat) : Prop :=
  pos.1 ≤ (x : ℤ) ∧ (x : ℤ) < pos.1 + face.width ∧
  pos.2 ≤ (y : ℤ) ∧ (y : ℤ) < pos.2 + face.height

instance (pos : ℤ × ℤ) (face : Image) (x y : Nat) :
    Decidable (InPasteBox pos face x y) := by
  unfold InPasteBox; infer_instance

/-- The pixel-level effect of `canvas.paste(face, pos, mask)` (dimensions and
mode of the canvas are unchanged; PIL mutates in place, we return the new
value).  `mask = none` overwrites every band inside the box; `mask = some m`
blends every band under `m`'s alpha band. -/
def pasteImage (canvas face : Image) (pos : ℤ × ℤ) (mask : Option Image) : Image :=
  ⟨canvas.width, canvas.height, canvas.mode, fun x y =>
    if InPasteBox pos face x y then
      let s := face.px ((x : ℤ) - pos.1).toNat ((y : ℤ) - pos.2).toNat
      match mask with
      | none => s
      | some m =>
        let d := canvas.px x y
        let ma := (m.px ((x : ℤ) - pos.1).toNat ((y : ℤ) - pos.2).toNat).a
        ⟨blendByte ma d.r s.r, blendByte ma d.g s.g,
         blendByte ma d.b s.b, blendByte ma d.a s.a⟩
    else canvas.px x y⟩

/-- Model of `canvas.paste(face, pos, mask)` as a fallible call: among the modelled
modes, only an `RGBA` mask of the face's size is a legal transparency mask;
an `RGB` mask raises `ValueError("bad transparency mask")`. -/
def pasteAt (canvas face : Image) (pos : ℤ × ℤ) (mask : Option Image) :
    Except Unit Image :=
  match mask with
  | none => Except.ok (pasteImage canvas face pos none)
  | some m =>
    if m.mode = Mode.RGBA ∧ m.width = face.width ∧ m.height = face.height then
      Except.ok (pasteImage canvas face pos (some m))
    else Except.error ()

/-! Section: the compositor  (`create_pseudo_3d_hologram`, src/main.py 151-181) -/

/-- Line 154: `hologram_bg = Image.new("RGBA", (1024, 1024), (0, 0, 0, 255))`. -/
def canvasBg : Image := Image.new Mode.RGBA 1024 1024 ⟨0, 0, 0, 255⟩

/-- Lines 156-158: `img_ready` = the source with contrast enhanced by `1.4`
and then thumbnailed into `380 × 380`. -/
def prepared (img : Image) : Image := thumbnail380 (enhanceContrastIm img)

/-- Line 160: `front = img_ready`. -/
def frontFace (img : Image) : Image := prepared img

/-- Line 161: `back = ImageOps.mirror(img_ready).rotate(180)`. -/
def backFace (img : Image) : Image := rotate180 (mirror (prepared img))

/-- Line 162: `side_w = int(img_ready.width * 0.8)`.  For the post-thumbnail
widths that occur (`≤ 380`) the float product is exact enough that
`int(w * 0.8) = ⌊4 w / 5⌋`. -/
def sideW (img : Image) : Nat := (prepared img).width * 4 / 5

/-- Line 163: `left = img_ready.resize((side_w, h)).rotate(270, expand=True)`. -/
def leftFace (img : Image) : Image :=
  rotateCCW270 (resize (prepared img) (sideW img) (prepared img).height)

/-- Line 164:
`right = ImageOps.mirror(img_ready).resize((side_w, h)).rotate(90, expand=True)`. -/
def rightFace (img : Image) : Image :=
  rotateCCW90 (resize (mirror (prepared img)) (sideW img) (prepared img).height)

/-- Line 166: `cx = (bg_size - img_ready.width) // 2` (Python floor division;
the numerator is positive since the thumbnail is at most 380 wide, so `ℤ`
division agrees). -/
def cxOf (img : Image) : ℤ := (1024 - ((prepared img).width : ℤ)) / 2

/-- Line 166: `sy = (bg_size - left.height) // 2`. -/
def syOf (img : Image) : ℤ := (1024 - ((leftFace img).height : ℤ)) / 2

/-- Line 173 paste position of `front`: `(cx, 70)`. -/
def posFront (img : Image) : ℤ × ℤ := (cxOf img, 70)

/-- Line 174 paste position of `back`: `(cx, bg_size - img_ready.height - 70)`. -/
def posBack (img : Image) : ℤ × ℤ :=
  (cxOf img, 1024 - ((prepared img).height : ℤ) - 70)

/-- Line 175 paste position of `left`: `(70, sy)`. -/
def posLeft (img : Image) : ℤ × ℤ := (70, syOf img)

/-- Line 176 paste position of `right`: `(bg_size - right.width - 70, sy)`. -/
def posRight (img : Image) : ℤ × ℤ :=
  (1024 - ((rightFace img).width : ℤ) - 70, syOf img)

/-- The body of the `try` block: build the faces, then paste them in order
front, back, left, right — each paste masked by the face itself when
`is_transparent` (lines 168-176) — and convert the canvas to `RGB`
(line 178).  The two failure points are `ImageEnhance.Contrast` on an empty
image (`ImageStat` divides by the pixel count) and `paste` given a non-`RGBA`
transparency mask. -/
def hologramPipeline (img : Image) (isTransparent : Bool) : Except Unit Image :=
  if img.width * img.height = 0 then Except.error () else
  (pasteAt canvasBg (frontFace img) (posFront img)
      (if isTransparent then some (frontFace img) else none)).bind fun c1 =>
  (pasteAt c1 (backFace img) (posBack img)
      (if isTransparent then some (backFace img) else none)).bind fun c2 =>
  (pasteAt c2 (leftFace img) (posLeft img)
      (if isTransparent then some (leftFace img) else none)).bind fun c3 =>
  (pasteAt c3 (rightFace img) (posRight img)
      (if isTransparent then some (rightFace img) else none)).bind fun c4 =>
  Except.ok (convertRGB c4)

/-- Lines 179-181: the `except` branch returns
`Image.new("RGB", (1024, 1024), (0, 0, 0))`. -/
def blackFallback : Image := Image.new Mode.RGB 1024 1024 ⟨0, 0, 0, 255⟩

/-- Model of `create_pseudo_3d_hologram(img_pil, is_transparent)`: the `try` body, or
the solid black 1024×1024 `RGB` fallback if any step raised. -/
def createPseudo3dHologram (img : Image) (isTransparent : Bool) : Image :=
  match hologramPipeline img isTransparent with
  | Except.ok holo => holo
  | Except.error _ => blackFallback

/-! Section: views of the four pastes used by the claim statements -/

/-- One paste call: a face, its position, and its optional transparency mask. -/
structure PasteOp where
  face : Image
  pos : ℤ × ℤ
  mask : Option Image

/-- Run one paste (the pixel-level effect). -/
def applyOp (c : Image) (op : PasteOp) : Image :=
  pasteImage c op.face op.pos op.mask

/-- The four paste calls of lines 173-176 in the order the code issues them:
front, back, left, right, each masked by itself when `is_transparent`. -/
def pasteOrder (img : Image) (t : Bool) : List PasteOp :=
  [⟨frontFace img, posFront img, if t then some (frontFace img) else none⟩,
   ⟨backFace img, posBack img, if t then some (backFace img) else none⟩,
   ⟨leftFace img, posLeft img, if t then some (leftFace img) else none⟩,
   ⟨rightFace img, posRight img, if t then some (rightFace img) else none⟩]

/-- The face pasted `i`-th (0 = front, 1 = back, 2 = left, 3 = right). -/
def pasteFace (img : Image) : Fin 4 → Image
  | 0 => frontFace img
  | 1 => backFace img
  | 2 => leftFace img
  | 3 => rightFace img

/-- The position of the `i`-th paste. -/
def pastePos (img : Image) : Fin 4 → ℤ × ℤ
  | 0 => posFront img
  | 1 => posBack img
  | 2 => posLeft img
  | 3 => posRight img

/-- Canvas pixel `(x, y)` lies under the `i`-th pasted face. -/
abbrev InFace (img : Image) (i : Fin 4) (x y : Nat) : Prop :=
  InPasteBox (pastePos img i) (pasteFace img i) x y

/-- The color channels of a pixel (what remains after `convert("RGB")`). -/
def rgb (p : Pix) : Nat × Nat × Nat := (p.r, p.g, p.b)

/-! Section: definitions following the specification's words

These are *not* translated from the code; they restate formulas exactly as
the specification phrases them, to be compared with the embedded code. -/

/-- Modelled from the spec: "rotated 90° (clockwise), output canvas expanded
to fit" — a 90° *clockwise* rotation, which claim C6 asserts for the right
face.  (The code's `rotate(90, expand=True)` is counter-clockwise.) -/
def specRotate90CW (i : Image) : Image :=
  ⟨i.height, i.width, i.mode, fun x y => i.px y (i.height - 1 - x)⟩

/-- Modelled from the spec: "`sideWidth` = 80% of `prepared`'s width (rounded
down to an integer pixel count)", i.e. `⌊0.8 · w⌋`. -/
def specSideWidth (w : Nat) : Nat := (⌊(0.8 : ℚ) * (w : ℚ)⌋).toNat

/-- Modelled from the spec: one channel of a contrast boost "by a fixed
multiplicative factor of 1.4": interpolate away from the mean by `1.4` and
clamp to the byte range, truncating. -/
def specContrastChannel (m v : Nat) : Nat :=
  (max 0 (min 255 ⌊(m : ℚ) + (1.4 : ℚ) * ((v : ℚ) - (m : ℚ))⌋)).toNat

/-! Section: concrete images for witnesses and the counterexample -/

/-- A 2×2 `RGBA` image whose top-left pixel is fully transparent and whose
other pixels are opaque.  It fits in 380×380, so thumbnailing keeps it. -/
def exRGBA2 : Image :=
  ⟨2, 2, Mode.RGBA, fun x y =>
    if x = 0 ∧ y = 0 then ⟨10, 20, 30, 0⟩ else ⟨10, 20, 30, 255⟩⟩

/-- A 1×1 opaque `RGB` image. -/
def exRGB1 : Image := ⟨1, 1, Mode.RGB, fun _ _ => ⟨5, 6, 7, 255⟩⟩

/-- A 0×0 (degenerate) image. -/
def exEmpty : Image := ⟨0, 0, Mode.RGB, fun _ _ => ⟨0, 0, 0, 255⟩⟩

/-- A 5×2 `RGBA` image that is constant along each row but differs between
its two rows; rows survive any horizontal resampling unchanged, which makes
the two candidate rotation directions of the right face distinguishable. -/
def exRows : Image :=
  ⟨5, 2, Mode.RGBA, fun _ y =>
    if y = 0 then ⟨10, 0, 0, 255⟩ else ⟨200, 0, 0, 255⟩⟩

/-! Section: statements of some claims, shared by their theorem and witness -/

/-- Claim C2's property: the compositor always returns a 1024×1024 `RGB`
image; on a zero-size source, and whenever the pipeline raises internally,
it returns exactly the solid black fallback, which is itself a solid black
1024×1024 `RGB` image. -/
def c2Prop (img : Image) (t : Bool) : Prop :=
  ((createPseudo3dHologram img t).width = 1024 ∧
   (createPseudo3dHologram img t).height = 1024 ∧
   (createPseudo3dHologram img t).mode = Mode.RGB) ∧
  (img.width * img.height = 0 → createPseudo3dHologram img t = blackFallback) ∧
  (∀ e : Unit, hologramPipeline img t = Except.error e →
    createPseudo3dHologram img t = blackFallback) ∧
  blackFallback.width = 1024 ∧ blackFallback.height = 1024 ∧
  blackFallback.mode = Mode.RGB ∧ ∀ x y, blackFallback.px x y = ⟨0, 0, 0, 255⟩

/-- Claim C4's property: every paste coordinate is nonnegative and no paste
coordinate plus the corresponding face extent exceeds 1024. -/
def c4Prop (img : Image) : Prop :=
  (0 ≤ (posFront img).1 ∧ 0 ≤ (posFront img).2 ∧
   (posFront img).1 + ((frontFace img).width : ℤ) ≤ 1024 ∧
   (posFront img).2 + ((frontFace img).height : ℤ) ≤ 1024) ∧
  (0 ≤ (posBack img).1 ∧ 0 ≤ (posBack img).2 ∧
   (posBack img).1 + ((backFace img).width : ℤ) ≤ 1024 ∧
   (posBack img).2 + ((backFace img).height : ℤ) ≤ 1024) ∧
  (0 ≤ (posLeft img).1 ∧ 0 ≤ (posLeft img).2 ∧
   (posLeft img).1 + ((leftFace img).width : ℤ) ≤ 1024 ∧
   (posLeft img).2 + ((leftFace img).height : ℤ) ≤ 1024) ∧
  (0 ≤ (posRight img).1 ∧ 0 ≤ (posRight img).2 ∧
   (posRight img).1 + ((rightFace img).width : ℤ) ≤ 1024 ∧
   (posRight img).2 + ((rightFace img).height : ℤ) ≤ 1024)

/-- Claim C5's property: the pipeline succeeds and equals the fold of the
four pastes in the order front, back, left, right; the positions are exactly
the spec's formulas (`//` is `ℤ` division here, numerators being positive);
and the left and right faces share one height, the pre-rotation width. -/
def c5Prop (img : Image) (t : Bool) : Prop :=
  hologramPipeline img t =
    Except.ok (convertRGB ((pasteOrder img t).foldl applyOp canvasBg)) ∧
  posFront img = ((1024 - ((prepared img).width : ℤ)) / 2, 70) ∧
  posBack img = ((1024 - ((prepared img).width : ℤ)) / 2,
    1024 - ((prepared img).height : ℤ) - 70) ∧
  posLeft img = (70, (1024 - ((leftFace img).height : ℤ)) / 2) ∧
  posRight img = (1024 - ((rightFace img).width : ℤ) - 70,
    (1024 - ((leftFace img).height : ℤ)) / 2) ∧
  (leftFace img).height = (rightFace img).height ∧
  (leftFace img).height = sideW img

/-- Claim C8's property: `prepared` is contrast-then-thumbnail; neither of
its dimensions exceeds 380; the thumbnail never enlarges; a source already
within 380×380 keeps its dimensions; and the contrast channel map is exactly
the clamped 1.4-interpolation the spec describes. -/
def c8Prop (img : Image) : Prop :=
  prepared img = thumbnail380 (enhanceContrastIm img) ∧
  (prepared img).width ≤ 380 ∧ (prepared img).height ≤ 380 ∧
  (prepared img).width ≤ img.width ∧ (prepared img).height ≤ img.height ∧
  (img.width ≤ 380 → img.height ≤ 380 →
    (prepared img).width = img.width ∧ (prepared img).height = img.height) ∧
  ∀ m v, contrastChannel m v = specContrastChannel m v

/-! Section: helper lemmas -/

@[simp] lemma mirror_width (i : Image) : (mirror i).width = i.width := rfl
@[simp] lemma mirror_height (i : Image) : (mirror i).height = i.height := rfl
@[simp] lemma mirror_mode (i : Image) : (mirror i).mode = i.mode := rfl
@[simp] lemma rotate180_mode (i : Image) : (rotate180 i).mode = i.mode := rfl
@[simp] lemma rotateCCW90_mode (i : Image) : (rotateCCW90 i).mode = i.mode := rfl
@[simp] lemma rotateCCW270_mode (i : Image) : (rotateCCW270 i).mode = i.mode := rfl
@[simp] lemma resize_mode (i : Image) (w h : Nat) : (resize i w h).mode = i.mode := rfl
@[simp] lemma enhanceContrastIm_mode (i : Image) :
    (enhanceContrastIm i).mode = i.mode := rfl
@[simp] lemma enhanceContrastIm_width (i : Image) :
    (enhanceContrastIm i).width = i.width := rfl
@[simp] lemma enhanceContrastIm_height (i : Image) :
    (enhanceContrastIm i).height = i.height := rfl

lemma thumbnail380_mode (i : Image) : (thumbnail380 i).mode = i.mode := by
  unfold thumbnail380
  split
  · rfl
  split
  · rfl
  · rfl

@[simp] lemma prepared_mode (img : Image) : (prepared img).mode = img.mode := by
  unfold prepared
  rw [thumbnail380_mode, enhanceContrastIm_mode]

@[simp] lemma frontFace_mode (img : Image) : (frontFace img).mode = img.mode :=
  prepared_mode img

@[simp] lemma backFace_mode (img : Image) : (backFace img).mode = img.mode := by
  unfold backFace; simp

@[simp] lemma leftFace_mode (img : Image) : (leftFace img).mode = img.mode := by
  unfold leftFace; simp

@[simp] lemma rightFace_mode (img : Image) : (rightFace img).mode = img.mode := by
  unfold rightFace; simp

@[simp] lemma frontFace_width (img : Image) :
    (frontFace img).width = (prepared img).width := rfl
@[simp] lemma frontFace_height (img : Image) :
    (frontFace img).height = (prepared img).height := rfl
@[simp] lemma backFace_width (img : Image) :
    (backFace img).width = (prepared img).width := rfl
@[simp] lemma backFace_height (img : Image) :
    (backFace img).height = (prepared img).height := rfl
@[simp] lemma leftFace_width (img : Image) :
    (leftFace img).width = (prepared img).height := rfl
@[simp] lemma leftFace_height (img : Image) :
    (leftFace img).height = sideW img := rfl
@[simp] lemma rightFace_width (img : Image) :
    (rightFace img).width = (prepared img).height := rfl
@[simp] lemma rightFace_height (img : Image) :
    (rightFace img).height = sideW img := rfl

@[simp] lemma pasteFace_zero (img : Image) : pasteFace img 0 = frontFace img := rfl
@[simp] lemma pasteFace_one (img : Image) : pasteFace img 1 = backFace img := rfl
@[simp] lemma pasteFace_two (img : Image) : pasteFace img 2 = leftFace img := rfl
@[simp] lemma pasteFace_three (img : Image) : pasteFace img 3 = rightFace img := rfl
@[simp] lemma pastePos_zero (img : Image) : pastePos img 0 = posFront img := rfl
@[simp] lemma pastePos_one (img : Image) : pastePos img 1 = posBack img := rfl
@[simp] lemma pastePos_two (img : Image) : pastePos img 2 = posLeft img := rfl
@[simp] lemma pastePos_three (img : Image) : pastePos img 3 = posRight img := rfl

@[simp] lemma pasteImage_width (c f : Image) (p : ℤ × ℤ) (m : Option Image) :
    (pasteImage c f p m).width = c.width := rfl
@[simp] lemma pasteImage_height (c f : Image) (p : ℤ × ℤ) (m : Option Image) :
    (pasteImage c f p m).height = c.height := rfl
@[simp] lemma pasteImage_mode (c f : Image) (p : ℤ × ℤ) (m : Option Image) :
    (pasteImage c f p m).mode = c.mode := rfl
@[simp] lemma convertRGB_width (i : Image) : (convertRGB i).width = i.width := rfl
@[simp] lemma convertRGB_height (i : Image) : (convertRGB i).height = i.height := rfl
@[simp] lemma convertRGB_mode (i : Image) : (convertRGB i).mode = Mode.RGB := rfl

lemma pasteImage_px_notin {p : ℤ × ℤ} {f : Image} {x y : Nat}
    (c : Image) (m : Option Image) (h : ¬ InPasteBox p f x y) :
    (pasteImage c f p m).px x y = c.px x y := by
  simp [pasteImage, h]

lemma pasteImage_px_in_none {p : ℤ × ℤ} {f : Image} {x y : Nat}
    (c : Image) (h : InPasteBox p f x y) :
    (pasteImage c f p none).px x y =
      f.px ((x : ℤ) - p.1).toNat ((y : ℤ) - p.2).toNat := by
  simp [pasteImage, h]

lemma pasteImage_px_in_some {p : ℤ × ℤ} {f : Image} {x y : Nat}
    (c m : Image) (h : InPasteBox p f x y) :
    (pasteImage c f p (some m)).px x y =
      ⟨blendByte ((m.px ((x : ℤ) - p.1).toNat ((y : ℤ) - p.2).toNat).a)
          (c.px x y).r (f.px ((x : ℤ) - p.1).toNat ((y : ℤ) - p.2).toNat).r,
       blendByte ((m.px ((x : ℤ) - p.1).toNat ((y : ℤ) - p.2).toNat).a)
          (c.px x y).g (f.px ((x : ℤ) - p.1).toNat ((y : ℤ) - p.2).toNat).g,
       blendByte ((m.px ((x : ℤ) - p.1).toNat ((y : ℤ) - p.2).toNat).a)
          (c.px x y).b (f.px ((x : ℤ) - p.1).toNat ((y : ℤ) - p.2).toNat).b,
       blendByte ((m.px ((x : ℤ) - p.1).toNat ((y : ℤ) - p.2).toNat).a)
          (c.px x y).a (f.px ((x : ℤ) - p.1).toNat ((y : ℤ) - p.2).toNat).a⟩ := by
  simp [pasteImage, h]

/-- A zero mask value leaves a black channel black. -/
lemma blendByte_zero_zero (s : Nat) : blendByte 0 0 s = 0 := by
  simp [blendByte, mulDiv255]

lemma pasteAt_none (c f : Image) (p : ℤ × ℤ) :
    pasteAt c f p none = Except.ok (pasteImage c f p none) := rfl

lemma pasteAt_some_ok {m f : Image} (c : Image) (p : ℤ × ℤ)
    (h1 : m.mode = Mode.RGBA) (h2 : m.width = f.width) (h3 : m.height = f.height) :
    pasteAt c f p (some m) = Except.ok (pasteImage c f p (some m)) := by
  show (if m.mode = Mode.RGBA ∧ m.width = f.width ∧ m.height = f.height then
      Except.ok (pasteImage c f p (some m)) else Except.error ()) = _
  rw [if_pos ⟨h1, h2, h3⟩]

lemma pasteAt_some_rgb {m f : Image} (c : Image) (p : ℤ × ℤ)
    (h1 : m.mode = Mode.RGB) :
    pasteAt c f p (some m) = Except.error () := by
  show (if m.mode = Mode.RGBA ∧ m.width = f.width ∧ m.height = f.height then
      Except.ok (pasteImage c f p (some m)) else Except.error ()) = _
  rw [if_neg]
  rintro ⟨ha, -⟩
  rw [h1] at ha
  exact Mode.noConfusion ha

lemma pasteAt_ok_eq {c f : Image} {p : ℤ × ℤ} {m : Option Image} {i : Image}
    (h : pasteAt c f p m = Except.ok i) : i = pasteImage c f p m := by
  cases m with
  | none =>
    rw [pasteAt_none] at h
    cases h
    rfl
  | some mm =>
    have h' : (if mm.mode = Mode.RGBA ∧ mm.width = f.width ∧ mm.height = f.height
        then Except.ok (pasteImage c f p (some mm)) else Except.error ())
        = Except.ok i := h
    by_cases hc : mm.mode = Mode.RGBA ∧ mm.width = f.width ∧ mm.height = f.height
    · rw [if_pos hc] at h'
      cases h'
      rfl
    · rw [if_neg hc] at h'
      cases h'

lemma roundAspect_le {q : ℚ} {key : ℤ → ℚ} {B : ℤ}
    (hf : ⌊q⌋ ≤ B) (hc : ⌈q⌉ ≤ B) (hB : 1 ≤ B) : roundAspect q key ≤ B := by
  unfold roundAspect
  split <;> omega

lemma aspectOf_nonneg (i : Image) : 0 ≤ aspectOf i := by
  unfold aspectOf
  positivity

lemma thumbTarget_le (i : Image) :
    (thumbTarget i).1 ≤ 380 ∧ (thumbTarget i).2 ≤ 380 := by
  unfold thumbTarget
  split
  case isTrue h =>
    have ha : aspectOf i ≤ 1 := by
      have h1 : (380 : ℚ) / 380 = 1 := by norm_num
      rw [h1] at h
      exact h
    have hval : (380 : ℚ) * aspectOf i ≤ ((380 : ℤ) : ℚ) := by
      push_cast
      nlinarith [aspectOf_nonneg i]
    have hc : ⌈(380 : ℚ) * aspectOf i⌉ ≤ 380 := Int.ceil_le.2 hval
    have hf : ⌊(380 : ℚ) * aspectOf i⌋ ≤ 380 := le_trans (Int.floor_le_ceil _) hc
    exact ⟨Int.toNat_le.2 (roundAspect_le hf hc (by norm_num)), le_refl _⟩
  case isFalse h =>
    have ha : 1 < aspectOf i := by
      have h1 : (380 : ℚ) / 380 = 1 := by norm_num
      rw [h1] at h
      exact lt_of_not_ge h
    have hval : (380 : ℚ) / aspectOf i ≤ ((380 : ℤ) : ℚ) := by
      push_cast
      exact div_le_self (by norm_num) (le_of_lt ha)
    have hc : ⌈(380 : ℚ) / aspectOf i⌉ ≤ 380 := Int.ceil_le.2 hval
    have hf : ⌊(380 : ℚ) / aspectOf i⌋ ≤ 380 := le_trans (Int.floor_le_ceil _) hc
    exact ⟨le_refl _, Int.toNat_le.2 (roundAspect_le hf hc (by norm_num))⟩

lemma thumbTarget_le_dims (i : Image) (hw : 0 < i.width) (hh : 0 < i.height)
    (hbig : ¬(380 ≥ i.width ∧ 380 ≥ i.height)) :
    (thumbTarget i).1 ≤ i.width ∧ (thumbTarget i).2 ≤ i.height := by
  have hw0 : (0 : ℚ) < (i.width : ℚ) := by exact_mod_cast hw
  have hh0 : (0 : ℚ) < (i.height : ℚ) := by exact_mod_cast hh
  unfold thumbTarget
  split
  case isTrue h =>
    have ha : aspectOf i ≤ 1 := by
      have h1 : (380 : ℚ) / 380 = 1 := by norm_num
      rw [h1] at h
      exact h
    have hwh : i.width ≤ i.height := by
      have := (div_le_one hh0).1 ha
      exact_mod_cast this
    have hhbig : 380 < i.height := by omega
    have hval : (380 : ℚ) * aspectOf i ≤ ((i.width : ℤ) : ℚ) := by
      unfold aspectOf
      rw [mul_div_assoc']
      rw [div_le_iff₀ hh0]
      push_cast
      have : (380 : ℚ) ≤ (i.height : ℚ) := by exact_mod_cast le_of_lt hhbig
      nlinarith
    have hc : ⌈(380 : ℚ) * aspectOf i⌉ ≤ (i.width : ℤ) := Int.ceil_le.2 hval
    have hf : ⌊(380 : ℚ) * aspectOf i⌋ ≤ (i.width : ℤ) := le_trans (Int.floor_le_ceil _) hc
    refine ⟨Int.toNat_le.2 (roundAspect_le hf hc (by exact_mod_cast hw)), by omega⟩
  case isFalse h =>
    have ha : 1 < aspectOf i := by
      have h1 : (380 : ℚ) / 380 = 1 := by norm_num
      rw [h1] at h
      exact lt_of_not_ge h
    have hwh : i.height ≤ i.width := by
      have h2 : (i.height : ℚ) < (i.width : ℚ) := by
        have := (one_lt_div hh0).1 ha
        exact this
      exact_mod_cast le_of_lt h2
    have hwbig : 380 < i.width := by omega
    have hapos : 0 < aspectOf i := lt_trans one_pos ha
    have hval : (380 : ℚ) / aspectOf i ≤ ((i.height : ℤ) : ℚ) := by
      rw [div_le_iff₀ hapos]
      unfold aspectOf
      rw [mul_div_assoc']
      rw [le_div_iff₀ hh0]
      push_cast
      have : (380 : ℚ) ≤ (i.width : ℚ) := by exact_mod_cast le_of_lt hwbig
      nlinarith
    have hc : ⌈(380 : ℚ) / aspectOf i⌉ ≤ (i.height : ℤ) := Int.ceil_le.2 hval
    have hf : ⌊(380 : ℚ) / aspectOf i⌋ ≤ (i.height : ℤ) := le_trans (Int.floor_le_ceil _) hc
    refine ⟨by omega, Int.toNat_le.2 (roundAspect_le hf hc (by exact_mod_cast hh))⟩

lemma thumbnail380_le380 (i : Image) :
    (thumbnail380 i).width ≤ 380 ∧ (thumbnail380 i).height ≤ 380 := by
  unfold thumbnail380
  split
  case isTrue h => exact ⟨h.1, h.2⟩
  case isFalse h =>
    split
    case isTrue h2 =>
      have := thumbTarget_le i
      constructor
      · rw [show i.width = (thumbTarget i).1 from congrArg Prod.fst h2]
        exact this.1
      · rw [show i.height = (thumbTarget i).2 from congrArg Prod.snd h2]
        exact this.2
    case isFalse h2 => exact thumbTarget_le i

lemma thumbnail380_le_dims (i : Image) (hw : 0 < i.width) (hh : 0 < i.height) :
    (thumbnail380 i).width ≤ i.width ∧ (thumbnail380 i).height ≤ i.height := by
  unfold thumbnail380
  split
  case isTrue h => exact ⟨le_refl _, le_refl _⟩
  case isFalse h =>
    split
    case isTrue h2 => exact ⟨le_refl _, le_refl _⟩
    case isFalse h2 =>
      exact thumbTarget_le_dims i hw hh h

lemma prepared_le380 (img : Image) :
    (prepared img).width ≤ 380 ∧ (prepared img).height ≤ 380 :=
  thumbnail380_le380 (enhanceContrastIm img)

lemma prepared_le_dims (img : Image) (hw : 0 < img.width) (hh : 0 < img.height) :
    (prepared img).width ≤ img.width ∧ (prepared img).height ≤ img.height :=
  thumbnail380_le_dims (enhanceContrastIm img) hw hh

lemma prepared_fits_eq (img : Image) (hw : img.width ≤ 380) (hh : img.height ≤ 380) :
    prepared img = enhanceContrastIm img := by
  unfold prepared thumbnail380
  rw [if_pos]
  exact ⟨hw, hh⟩

/-- Lemma: `int(w * 0.8)` agrees with the spec's "80% rounded down". -/
lemma sideW_eq_spec (w : Nat) : w * 4 / 5 = specSideWidth w := by
  unfold specSideWidth
  have h1 : (0.8 : ℚ) * (w : ℚ) = ((w * 4 : ℕ) : ℚ) / ((5 : ℕ) : ℚ) := by
    push_cast
    ring
  rw [h1]
  rw [show (((w * 4 : ℕ) : ℚ) / ((5 : ℕ) : ℚ)) = (((w * 4 : ℕ) : ℤ) : ℚ) / ((5 : ℕ) : ℚ) by push_cast; ring]
  rw [Rat.floor_intCast_div_natCast]
  omega

lemma contrastChannel_eq_spec (m v : Nat) :
    contrastChannel m v = specContrastChannel m v := by
  unfold contrastChannel specContrastChannel
  have h1 : (m : ℚ) + (1.4 : ℚ) * ((v : ℚ) - (m : ℚ)) =
      ((7 * (v : ℤ) - 2 * (m : ℤ) : ℤ) : ℚ) / ((5 : ℕ) : ℚ) := by
    push_cast
    ring
  rw [h1, Rat.floor_intCast_div_natCast]
  rcases le_or_lt (7 * v) (2 * m) with hcase | hcase
  · rw [if_pos hcase]
    omega
  · rw [if_neg (not_le.2 hcase)]
    omega

/-- When the source is nonempty and, if masked pasting is requested, carries
an alpha band, the `try` body succeeds and is the four pastes in order. -/
lemma pipeline_ok_eq (img : Image) (t : Bool)
    (hne : 0 < img.width * img.height) (hm : t = true → img.mode = Mode.RGBA) :
    hologramPipeline img t = Except.ok (convertRGB
      (pasteImage (pasteImage (pasteImage (pasteImage canvasBg
        (frontFace img) (posFront img) (if t then some (frontFace img) else none))
        (backFace img) (posBack img) (if t then some (backFace img) else none))
        (leftFace img) (posLeft img) (if t then some (leftFace img) else none))
        (rightFace img) (posRight img) (if t then some (rightFace img) else none))) := by
  unfold hologramPipeline
  rw [if_neg (by omega)]
  cases t with
  | false =>
    simp only [Bool.false_eq_true, if_false, pasteAt_none, Except.bind]
  | true =>
    have hmode := hm rfl
    simp only [if_true]
    rw [pasteAt_some_ok _ _ (by simp [hmode]) rfl rfl]
    simp only [Except.bind]
    rw [pasteAt_some_ok _ _ (by simp [hmode]) rfl rfl]
    simp only [Except.bind]
    rw [pasteAt_some_ok _ _ (by simp [hmode]) rfl rfl]
    simp only [Except.bind]
    rw [pasteAt_some_ok _ _ (by simp [hmode]) rfl rfl]

/-- Every successful run returns `convert("RGB")` of a 1024×1024 canvas. -/
lemma pipeline_ok_inv {img : Image} {t : Bool} {c : Image}
    (h : hologramPipeline img t = Except.ok c) :
    ∃ c4, c = convertRGB c4 ∧ c4.width = 1024 ∧ c4.height = 1024 := by
  unfold hologramPipeline at h
  by_cases hz : img.width * img.height = 0
  · rw [if_pos hz] at h
    exact absurd h (by simp)
  rw [if_neg hz] at h
  rcases h1 : pasteAt canvasBg (frontFace img) (posFront img)
      (if t then some (frontFace img) else none) with e1 | c1
  · rw [h1] at h
    exact absurd h (by simp [Except.bind])
  rw [h1] at h
  simp only [Except.bind] at h
  have hc1 := pasteAt_ok_eq h1
  rcases h2 : pasteAt c1 (backFace img) (posBack img)
      (if t then some (backFace img) else none) with e2 | c2
  · rw [h2] at h
    exact absurd h (by simp)
  rw [h2] at h
  simp only [Except.bind] at h
  have hc2 := pasteAt_ok_eq h2
  rcases h3 : pasteAt c2 (leftFace img) (posLeft img)
      (if t then some (leftFace img) else none) with e3 | c3
  · rw [h3] at h
    exact absurd h (by simp)
  rw [h3] at h
  simp only [Except.bind] at h
  have hc3 := pasteAt_ok_eq h3
  rcases h4 : pasteAt c3 (rightFace img) (posRight img)
      (if t then some (rightFace img) else none) with e4 | c4
  · rw [h4] at h
    exact absurd h (by simp)
  rw [h4] at h
  simp only [Except.bind, Except.ok.injEq] at h
  have hc4 := pasteAt_ok_eq h4
  refine ⟨c4, h.symm, ?_, ?_⟩
  · rw [hc4, pasteImage_width, hc3, pasteImage_width, hc2, pasteImage_width,
      hc1, pasteImage_width]
    rfl
  · rw [hc4, pasteImage_height, hc3, pasteImage_height, hc2, pasteImage_height,
      hc1, pasteImage_height]
    rfl

/-- The compositor returns either the black fallback or a converted canvas. -/
lemma createPseudo_shape (img : Image) (t : Bool) :
    createPseudo3dHologram img t = blackFallback ∨
    ∃ c4, createPseudo3dHologram img t = convertRGB c4 ∧
      c4.width = 1024 ∧ c4.height = 1024 := by
  unfold createPseudo3dHologram
  rcases hp : hologramPipeline img t with e | c
  · left
    rfl
  · right
    obtain ⟨c4, hc, hw, hh⟩ := pipeline_ok_inv hp
    exact ⟨c4, by rw [hc], hw, hh⟩

/-! Section: claim theorems -/

/-- Claim C1: for every input, the compositor returns an image of dimensions
exactly 1024×1024 whose color mode is opaque `RGB` with no alpha channel
(every pixel's alpha reads as fully opaque, transparency having been consumed
before the composite is returned). -/
theorem holo_c1 (img : Image) (t : Bool) :
    (createPseudo3dHologram img t).width = 1024 ∧
    (createPseudo3dHologram img t).height = 1024 ∧
    (createPseudo3dHologram img t).mode = Mode.RGB ∧
    ∀ x y, ((createPseudo3dHologram img t).px x y).a = 255 := by
  rcases createPseudo_shape img t with h | ⟨c4, h, hw4, hh4⟩
  · rw [h]
    exact ⟨rfl, rfl, rfl, fun x y => rfl⟩
  · rw [h]
    exact ⟨by simp [hw4], by simp [hh4], rfl, fun x y => rfl⟩

/-- Claim C2: the compositor never propagates an exception: it is total, its
result is always a valid 1024×1024 `RGB` image, and on a zero-size source —
or whenever the internal pipeline raises — it returns exactly the solid
black 1024×1024 `RGB` fallback. -/
theorem holo_c2 (img : Image) (t : Bool) : c2Prop img t := by
  refine ⟨?_, ?_, ?_, rfl, rfl, rfl, fun x y => rfl⟩
  · rcases createPseudo_shape img t with h | ⟨c4, h, hw4, hh4⟩
    · rw [h]
      exact ⟨rfl, rfl, rfl⟩
    · rw [h]
      exact ⟨by simp [hw4], by simp [hh4], rfl⟩
  · intro hz
    have hp : hologramPipeline img t = Except.error () := by
      unfold hologramPipeline
      rw [if_pos hz]
    unfold createPseudo3dHologram
    rw [hp]
  · intro e he
    unfold createPseudo3dHologram
    rw [he]

/-- Claim C2 witness: on the 0×0 source the compositor returns the black
fallback. -/
theorem holo_c2_witness :
    exEmpty.width * exEmpty.height = 0 ∧
    createPseudo3dHologram exEmpty true = blackFallback :=
  ⟨rfl, (holo_c2 exEmpty true).2.1 rfl⟩

/-- Claim C3: the compositor is deterministic — it is a pure function of
`(sourceImage, preserveTransparency)`, so equal inputs give equal (hence
byte-identical) outputs, with no dependence on time or prior calls. -/
theorem holo_c3 (img₁ img₂ : Image) (t₁ t₂ : Bool)
    (h : img₁ = img₂) (ht : t₁ = t₂) :
    createPseudo3dHologram img₁ t₁ = createPseudo3dHologram img₂ t₂ := by
  rw [h, ht]

/-- Claim C3 witness: two calls on the same concrete input agree. -/
theorem holo_c3_witness :
    createPseudo3dHologram exRGBA2 true = createPseudo3dHologram exRGBA2 true :=
  holo_c3 exRGBA2 exRGBA2 true true rfl rfl

/-- Claim C10: an opaque `RGB` source with `preserveTransparency = true`
makes the first masked paste raise (`RGB` is not a valid transparency mask),
so the pipeline errors and the compositor returns the black fallback instead
of a four-face composite. -/
theorem holo_c10 (img : Image) (hmode : img.mode = Mode.RGB) :
    hologramPipeline img true = Except.error () ∧
    createPseudo3dHologram img true = blackFallback := by
  have hp : hologramPipeline img true = Except.error () := by
    unfold hologramPipeline
    by_cases hz : img.width * img.height = 0
    · rw [if_pos hz]
    · rw [if_neg hz]
      simp only [if_true]
      rw [pasteAt_some_rgb _ _ (by simp [hmode])]
      rfl
  refine ⟨hp, ?_⟩
  unfold createPseudo3dHologram
  rw [hp]

/-- Claim C10 witness: a concrete 1×1 `RGB` source with masking requested
yields the black fallback. -/
theorem holo_c10_witness :
    hologramPipeline exRGB1 true = Except.error () ∧
    createPseudo3dHologram exRGB1 true = blackFallback :=
  holo_c10 exRGB1 rfl

/-- Claim C9: the front face is the prepared image unchanged, and the back
face is the prepared image mirrored left-right then rotated 180° — which,
pointwise on the pixel grid, is a vertical flip. -/
theorem holo_c9 (img : Image) (x y : Nat)
    (hx : x < (prepared img).width) (_hy : y < (prepared img).height) :
    frontFace img = prepared img ∧
    backFace img = rotate180 (mirror (prepared img)) ∧
    (backFace img).width = (prepared img).width ∧
    (backFace img).height = (prepared img).height ∧
    (backFace img).px x y = (prepared img).px x ((prepared img).height - 1 - y) := by
  refine ⟨rfl, rfl, rfl, rfl, ?_⟩
  show (prepared img).px
      ((prepared img).width - 1 - ((prepared img).width - 1 - x))
      ((prepared img).height - 1 - y) = _
  congr 1
  omega

/-- Claim C9 witness: the pixel identity at a concrete pixel of a concrete
source. -/
theorem holo_c9_witness :
    1 < (prepared exRGBA2).width ∧ 0 < (prepared exRGBA2).height ∧
    (backFace exRGBA2).px 1 0 =
      (prepared exRGBA2).px 1 ((prepared exRGBA2).height - 1 - 0) :=
  ⟨by decide, by decide, (holo_c9 exRGBA2 1 0 (by decide) (by decide)).2.2.2.2⟩

/-- Claim C6 (amended): the left face is the prepared image resized to
`sideWidth × height` and rotated 270° counter-clockwise with the output
canvas expanded to fit exactly, and the right face is the prepared image
mirrored, resized the same way, and rotated 90° **counter-clockwise**
(the code's `rotate(90)`; the claim said clockwise) with the output canvas
expanded to fit; `sideWidth` is 80% of the prepared width rounded down. -/
theorem holo_c6 (img : Image) :
    leftFace img =
      rotateCCW270 (resize (prepared img) (sideW img) (prepared img).height) ∧
    rightFace img =
      rotateCCW90 (resize (mirror (prepared img)) (sideW img) (prepared img).height) ∧
    sideW img = specSideWidth (prepared img).width ∧
    (leftFace img).width = (prepared img).height ∧
    (leftFace img).height = sideW img ∧
    (rightFace img).width = (prepared img).height ∧
    (rightFace img).height = sideW img :=
  ⟨rfl, rfl, sideW_eq_spec (prepared img).width, rfl, rfl, rfl, rfl⟩

/-- Claim C6 counterexample: on a concrete source the code's right face
(`rotate(90)`, counter-clockwise) differs from the right face the claim
describes (90° clockwise), so the claim as stated is false. -/
theorem holo_c6_cex :
    ((rightFace exRows).px 0 0).r ≠
    ((specRotate90CW (resize (mirror (prepared exRows)) (sideW exRows)
        (prepared exRows).height)).px 0 0).r := by
  decide

/-- Claim C5: when the pipeline runs (nonempty source, and an alpha-carrying
source if masking is requested), the composite is exactly the fold of the
four pastes in the order front, back, left, right at the spec's positions,
and the left and right faces share the height `sideWidth` (the pre-rotation
width), so the single `sy` centers both. -/
theorem holo_c5 (img : Image) (t : Bool) (hne : 0 < img.width * img.height)
    (hm : t = true → img.mode = Mode.RGBA) : c5Prop img t := by
  refine ⟨?_, rfl, rfl, rfl, rfl, rfl, rfl⟩
  rw [pipeline_ok_eq img t hne hm]
  rfl

/-- Claim C5 witness: the paste order and positions at a concrete source. -/
theorem holo_c5_witness :
    0 < exRGBA2.width * exRGBA2.height ∧ c5Prop exRGBA2 true :=
  ⟨by decide, holo_c5 exRGBA2 true (by decide) (fun _ => rfl)⟩

/-- Claim C8: the prepared image is the source contrast-boosted by the fixed
factor 1.4 and thumbnailed: neither dimension exceeds 380, the thumbnail
never enlarges, and a source already within 380×380 keeps its dimensions. -/
theorem holo_c8 (img : Image) (hw : 0 < img.width) (hh : 0 < img.height) :
    c8Prop img := by
  refine ⟨rfl, (prepared_le380 img).1, (prepared_le380 img).2,
    (prepared_le_dims img hw hh).1, (prepared_le_dims img hw hh).2, ?_,
    contrastChannel_eq_spec⟩
  intro h1 h2
  rw [prepared_fits_eq img h1 h2]
  exact ⟨rfl, rfl⟩

/-- Claim C8 witness: the thumbnail facts at a concrete source. -/
theorem holo_c8_witness :
    0 < exRGBA2.width ∧ 0 < exRGBA2.height ∧ c8Prop exRGBA2 :=
  ⟨by decide, by decide, holo_c8 exRGBA2 (by decide) (by decide)⟩

/-- Claim C4: with the prepared image within 380×380 (which the thumbnail
step guarantees), all four pasted faces lie fully inside the 1024×1024
canvas: no paste coordinate is negative and none plus the face extent
exceeds 1024. -/
theorem holo_c4 (img : Image)
    (hw : (prepared img).width ≤ 380) (hh : (prepared img).height ≤ 380) :
    c4Prop img := by
  have hsw : sideW img ≤ 304 := by
    unfold sideW
    omega
  have hcx1 : 0 ≤ cxOf img := by
    unfold cxOf
    omega
  have hcx2 : cxOf img + ((prepared img).width : ℤ) ≤ 1024 := by
    unfold cxOf
    omega
  have hsy1 : 0 ≤ syOf img := by
    unfold syOf
    simp only [leftFace_height]
    omega
  have hsy2 : syOf img + ((sideW img : ℕ) : ℤ) ≤ 1024 := by
    unfold syOf
    simp only [leftFace_height]
    omega
  refine ⟨⟨hcx1, by show (0:ℤ) ≤ 70; norm_num, ?_, ?_⟩, ⟨hcx1, ?_, ?_, ?_⟩,
    ⟨by show (0:ℤ) ≤ 70; norm_num, hsy1, ?_, ?_⟩, ⟨?_, hsy1, ?_, ?_⟩⟩
  · exact hcx2
  · show (70 : ℤ) + ((prepared img).height : ℤ) ≤ 1024
    omega
  · show (0 : ℤ) ≤ 1024 - ((prepared img).height : ℤ) - 70
    omega
  · show cxOf img + ((prepared img).width : ℤ) ≤ 1024
    exact hcx2
  · show 1024 - ((prepared img).height : ℤ) - 70 + ((prepared img).height : ℤ) ≤ 1024
    omega
  · show (70 : ℤ) + ((prepared img).height : ℤ) ≤ 1024
    omega
  · show syOf img + ((sideW img : ℕ) : ℤ) ≤ 1024
    exact hsy2
  · show (0 : ℤ) ≤ 1024 - ((prepared img).height : ℤ) - 70
    omega
  · show 1024 - ((prepared img).height : ℤ) - 70 + ((prepared img).height : ℤ) ≤ 1024
    omega
  · show syOf img + ((sideW img : ℕ) : ℤ) ≤ 1024
    exact hsy2

/-- Claim C4 witness: containment at a concrete source. -/
theorem holo_c4_witness :
    (prepared exRGBA2).width ≤ 380 ∧ (prepared exRGBA2).height ≤ 380 ∧
    c4Prop exRGBA2 :=
  ⟨by decide, by decide, holo_c4 exRGBA2 (by decide) (by decide)⟩

lemma rgb_convertRGB (i : Image) (x y : Nat) :
    rgb ((convertRGB i).px x y) = rgb (i.px x y) := rfl

/-- Claim C7: consider a nonempty `RGBA` source and a canvas pixel under the
`i`-th pasted face.  With `preserveTransparency = true` the face's own alpha
is the paste mask, so if the face is fully transparent there and no other
face's box covers the pixel, the output stays pure black; with
`preserveTransparency = false` the face is pasted fully opaque, so if no
later-pasted face's box covers the pixel the output is exactly the face's
own color there, with no blending. -/
theorem holo_c7 (img : Image) (i : Fin 4) (x y : Nat)
    (hw : 0 < img.width) (hh : 0 < img.height) (hmode : img.mode = Mode.RGBA)
    (hbox : InFace img i x y) :
    (((pasteFace img i).px ((x : ℤ) - (pastePos img i).1).toNat
        ((y : ℤ) - (pastePos img i).2).toNat).a = 0 →
      (∀ j : Fin 4, j ≠ i → ¬ InFace img j x y) →
      rgb ((createPseudo3dHologram img true).px x y) = (0, 0, 0)) ∧
    ((∀ j : Fin 4, i < j → ¬ InFace img j x y) →
      rgb ((createPseudo3dHologram img false).px x y) =
        rgb ((pasteFace img i).px ((x : ℤ) - (pastePos img i).1).toNat
          ((y : ℤ) - (pastePos img i).2).toNat)) := by
  have hne : 0 < img.width * img.height := Nat.mul_pos hw hh
  have hT : createPseudo3dHologram img true = convertRGB
      (pasteImage (pasteImage (pasteImage (pasteImage canvasBg
        (frontFace img) (posFront img) (some (frontFace img)))
        (backFace img) (posBack img) (some (backFace img)))
        (leftFace img) (posLeft img) (some (leftFace img)))
        (rightFace img) (posRight img) (some (rightFace img))) := by
    unfold createPseudo3dHologram
    rw [pipeline_ok_eq img true hne (fun _ => hmode)]
    rfl
  have hF : createPseudo3dHologram img false = convertRGB
      (pasteImage (pasteImage (pasteImage (pasteImage canvasBg
        (frontFace img) (posFront img) none)
        (backFace img) (posBack img) none)
        (leftFace img) (posLeft img) none)
        (rightFace img) (posRight img) none) := by
    unfold createPseudo3dHologram
    rw [pipeline_ok_eq img false hne (fun h => absurd h (by simp))]
    rfl
  constructor
  · intro ha hothers
    rw [hT, rgb_convertRGB]
    fin_cases i
    · have hbox' : InPasteBox (posFront img) (frontFace img) x y := hbox
      have ha' : ((frontFace img).px ((x : ℤ) - (posFront img).1).toNat
          ((y : ℤ) - (posFront img).2).toNat).a = 0 := ha
      have h1 : ¬ InPasteBox (posBack img) (backFace img) x y :=
        hothers 1 (by decide)
      have h2 : ¬ InPasteBox (posLeft img) (leftFace img) x y :=
        hothers 2 (by decide)
      have h3 : ¬ InPasteBox (posRight img) (rightFace img) x y :=
        hothers 3 (by decide)
      rw [pasteImage_px_notin _ _ h3, pasteImage_px_notin _ _ h2,
        pasteImage_px_notin _ _ h1, pasteImage_px_in_some _ _ hbox', ha']
      simp [rgb, blendByte_zero_zero, canvasBg, Image.new]
    · have hbox' : InPasteBox (posBack img) (backFace img) x y := hbox
      have ha' : ((backFace img).px ((x : ℤ) - (posBack img).1).toNat
          ((y : ℤ) - (posBack img).2).toNat).a = 0 := ha
      have h0 : ¬ InPasteBox (posFront img) (frontFace img) x y :=
        hothers 0 (by decide)
      have h2 : ¬ InPasteBox (posLeft img) (leftFace img) x y :=
        hothers 2 (by decide)
      have h3 : ¬ InPasteBox (posRight img) (rightFace img) x y :=
        hothers 3 (by decide)
      rw [pasteImage_px_notin _ _ h3, pasteImage_px_notin _ _ h2,
        pasteImage_px_in_some _ _ hbox', pasteImage_px_notin _ _ h0, ha']
      simp [rgb, blendByte_zero_zero, canvasBg, Image.new]
    · have hbox' : InPasteBox (posLeft img) (leftFace img) x y := hbox
      have ha' : ((leftFace img).px ((x : ℤ) - (posLeft img).1).toNat
          ((y : ℤ) - (posLeft img).2).toNat).a = 0 := ha
      have h0 : ¬ InPasteBox (posFront img) (frontFace img) x y :=
        hothers 0 (by decide)
      have h1 : ¬ InPasteBox (posBack img) (backFace img) x y :=
        hothers 1 (by decide)
      have h3 : ¬ InPasteBox (posRight img) (rightFace img) x y :=
        hothers 3 (by decide)
      rw [pasteImage_px_notin _ _ h3, pasteImage_px_in_some _ _ hbox',
        pasteImage_px_notin _ _ h1, pasteImage_px_notin _ _ h0, ha']
      simp [rgb, blendByte_zero_zero, canvasBg, Image.new]
    · have hbox' : InPasteBox (posRight img) (rightFace img) x y := hbox
      have ha' : ((rightFace img).px ((x : ℤ) - (posRight img).1).toNat
          ((y : ℤ) - (posRight img).2).toNat).a = 0 := ha
      have h0 : ¬ InPasteBox (posFront img) (frontFace img) x y :=
        hothers 0 (by decide)
      have h1 : ¬ InPasteBox (posBack img) (backFace img) x y :=
        hothers 1 (by decide)
      have h2 : ¬ InPasteBox (posLeft img) (leftFace img) x y :=
        hothers 2 (by decide)
      rw [pasteImage_px_in_some _ _ hbox', pasteImage_px_notin _ _ h2,
        pasteImage_px_notin _ _ h1, pasteImage_px_notin _ _ h0, ha']
      simp [rgb, blendByte_zero_zero, canvasBg, Image.new]
  · intro hlater
    rw [hF, rgb_convertRGB]
    fin_cases i
    · have hbox' : InPasteBox (posFront img) (frontFace img) x y := hbox
      have h1 : ¬ InPasteBox (posBack img) (backFace img) x y :=
        hlater 1 (by decide)
      have h2 : ¬ InPasteBox (posLeft img) (leftFace img) x y :=
        hlater 2 (by decide)
      have h3 : ¬ InPasteBox (posRight img) (rightFace img) x y :=
        hlater 3 (by decide)
      rw [pasteImage_px_notin _ _ h3, pasteImage_px_notin _ _ h2,
        pasteImage_px_notin _ _ h1, pasteImage_px_in_none _ hbox']
      rfl
    · have hbox' : InPasteBox (posBack img) (backFace img) x y := hbox
      have h2 : ¬ InPasteBox (posLeft img) (leftFace img) x y :=
        hlater 2 (by decide)
      have h3 : ¬ InPasteBox (posRight img) (rightFace img) x y :=
        hlater 3 (by decide)
      rw [pasteImage_px_notin _ _ h3, pasteImage_px_notin _ _ h2,
        pasteImage_px_in_none _ hbox']
      rfl
    · have hbox' : InPasteBox (posLeft img) (leftFace img) x y := hbox
      have h3 : ¬ InPasteBox (posRight img) (rightFace img) x y :=
        hlater 3 (by decide)
      rw [pasteImage_px_notin _ _ h3, pasteImage_px_in_none _ hbox']
      rfl
    · have hbox' : InPasteBox (posRight img) (rightFace img) x y := hbox
      rw [pasteImage_px_in_none _ hbox']
      rfl

/-- Claim C7 witness: for a concrete 2×2 `RGBA` source with a fully
transparent top-left pixel, the canvas pixel under that corner of the front
face stays pure black under masked pasting, and is overwritten with the
face's own color under opaque pasting. -/
theorem holo_c7_witness :
    InFace exRGBA2 0 511 70 ∧
    ((pasteFace exRGBA2 0).px ((511 : ℤ) - (pastePos exRGBA2 0).1).toNat
        ((70 : ℤ) - (pastePos exRGBA2 0).2).toNat).a = 0 ∧
    (∀ j : Fin 4, j ≠ 0 → ¬ InFace exRGBA2 j 511 70) ∧
    rgb ((createPseudo3dHologram exRGBA2 true).px 511 70) = (0, 0, 0) ∧
    rgb ((createPseudo3dHologram exRGBA2 false).px 511 70) =
      rgb ((pasteFace exRGBA2 0).px ((511 : ℤ) - (pastePos exRGBA2 0).1).toNat
        ((70 : ℤ) - (pastePos exRGBA2 0).2).toNat) := by
  refine ⟨by decide, by decide, by decide, ?_, ?_⟩
  · exact (holo_c7 exRGBA2 0 511 70 (by decide) (by decide) rfl
      (by decide)).1 (by decide) (by decide)
  · exact (holo_c7 exRGBA2 0 511 70 (by decide) (by decide) rfl
      (by decide)).2 (by decide)

end Holo
